import Mathlib

/-!
Verification of the `python-datamodel` Rust extension modules
(`rs_core`, `rs_parsers`, `rst_converters`) against their
natural-language specification.

The three Rust source files are shallowly embedded below.  Python
values handed to the PyO3 entry points are modelled by the inductive
type `PyValue`; machine floats (`f64`) are modelled by exact rationals
(every concrete input used in a theorem is exactly representable in
`f64`, and none of the modelled code paths perform float arithmetic
whose rounding could be observed at those inputs); fallible code is
modelled with `Except`/`Option`.  Library functions called by the
sources (chrono, speedate, uuid, rust_decimal) are modelled by
executable Lean functions whose doc comments record the modelled
behaviour and any documented restriction.
-/

/-! ## Calendar arithmetic (proleptic Gregorian, Howard Hinnant's civil algorithms) -/

/-- Leap-year test of the proleptic Gregorian calendar. -/
def isLeapYear (y : Int) : Bool :=
  (y % 4 == 0 && y % 100 != 0) || (y % 400 == 0)

/-- Number of days of month `m` (1-12) of year `y`. -/
def daysInMonth (y : Int) (m : Nat) : Nat :=
  if m == 2 then (if isLeapYear y then 29 else 28)
  else if m == 4 || m == 6 || m == 9 || m == 11 then 30
  else 31

/-- Is `y-m-d` a valid proleptic Gregorian calendar date? -/
def validYmd (y : Int) (m d : Nat) : Bool :=
  1 ≤ m && m ≤ 12 && 1 ≤ d && d ≤ daysInMonth y m

/-- Days since the epoch 1970-01-01 of the civil date `y-m-d`
(Hinnant's `days_from_civil`). -/
def daysFromCivil (y : Int) (m d : Nat) : Int :=
  let yAdj : Int := if m ≤ 2 then y - 1 else y
  let era : Int := Int.fdiv yAdj 400
  let yoe : Int := yAdj - era * 400
  let mp : Nat := (m + 9) % 12
  let doy : Nat := (153 * mp + 2) / 5 + d - 1
  let doe : Int := yoe * 365 + Int.fdiv yoe 4 - Int.fdiv yoe 100 + doy
  era * 146097 + doe - 719468

/-- Civil date `(y, m, d)` of the day `z` counted from the epoch
1970-01-01 (Hinnant's `civil_from_days`). -/
def civilFromDays (z : Int) : Int × Nat × Nat :=
  let z' : Int := z + 719468
  let era : Int := Int.fdiv z' 146097
  let doe : Nat := (z' - era * 146097).toNat
  let yoe : Nat := (doe - doe / 1460 + doe / 36524 - doe / 146096) / 365
  let y : Int := (yoe : Int) + era * 400
  let doy : Nat := doe - (365 * yoe + yoe / 4 - yoe / 100)
  let mp : Nat := (5 * doy + 2) / 153
  let d : Nat := doy - (153 * mp + 2) / 5 + 1
  let m : Nat := if mp < 10 then mp + 3 else mp - 9
  (if m ≤ 2 then y + 1 else y, m, d)

/-! ## Rust string primitives -/

/-- Model of Rust `char::is_whitespace`: the Unicode `White_Space`
property (the full 25-codepoint set). -/
def rustIsWhitespace (c : Char) : Bool :=
  c == ' ' || c == '\t' || c == '\n' || c == '\r' ||
  c.val == 0x0B || c.val == 0x0C || c.val == 0x85 || c.val == 0xA0 ||
  c.val == 0x1680 || (0x2000 ≤ c.val && c.val ≤ 0x200A) ||
  c.val == 0x2028 || c.val == 0x2029 || c.val == 0x202F ||
  c.val == 0x205F || c.val == 0x3000

/-- Model of Rust `str::trim`: drop leading and trailing whitespace. -/
def rustTrim (s : String) : String :=
  ⟨((s.toList.dropWhile rustIsWhitespace).reverse.dropWhile rustIsWhitespace).reverse⟩

/-- Model of Rust `str::to_lowercase`, restricted to the ASCII mapping
(`Char.toLower`).  Full Unicode lowercasing differs only on non-ASCII
characters, and no non-ASCII string lowercases to any token that the
code compares against. -/
def rustLowercase (s : String) : String :=
  ⟨s.toList.map Char.toLower⟩

/-- `trim().to_lowercase()` composition used by both `strtobool`s. -/
def normToken (s : String) : String := rustLowercase (rustTrim s)

/-! ## The truth-table parsers (`strtobool` in `rs_parsers` and in `rst_converters`) -/

/-- Error raised by `strtobool` (a `PyValueError` whose message names the
offending input; the two modules use different message texts, modelled
here by the same constructor carrying the input). -/
inductive BoolErr where
  | invalidBoolean (input : String)
deriving DecidableEq, Repr

namespace RsParsers

/-- Truthy tokens of `rs_parsers::strtobool`. -/
def truthyTokens : List String := ["y", "yes", "t", "true", "on", "1"]

/-- Falsy tokens of `rs_parsers::strtobool` (this variant also accepts
`none` and `null`). -/
def falsyTokens : List String := ["n", "no", "f", "false", "off", "0", "none", "null"]

/-- Embedding of `rs_parsers::strtobool` (src/datamodel/rs_parsers/src/lib.rs,
lines 120-131): match on `val.trim().to_lowercase()`. -/
def strtobool (val : String) : Except BoolErr Bool :=
  if normToken val ∈ truthyTokens then .ok true
  else if normToken val ∈ falsyTokens then .ok false
  else .error (.invalidBoolean val)

end RsParsers

namespace RstConverters

/-- Truthy tokens of `rst_converters::strtobool`. -/
def truthyTokens : List String := ["y", "yes", "t", "true", "on", "1"]

/-- Falsy tokens of `rst_converters::strtobool` (this variant does not
accept `none`/`null`). -/
def falsyTokens : List String := ["n", "no", "f", "false", "off", "0"]

/-- Embedding of `rst_converters::strtobool` (src/datamodel/rst_converters/src/lib.rs,
lines 24-39). -/
def strtobool (val : String) : Except BoolErr Bool :=
  if normToken val ∈ truthyTokens then .ok true
  else if normToken val ∈ falsyTokens then .ok false
  else .error (.invalidBoolean val)

end RstConverters

/-! ## Result value types (the Python `datetime.date` / `datetime.datetime` objects built via PyO3) -/

/-- A Python `datetime.date` as constructed by `PyDate::new`. -/
structure PyDateV where
  year : Int
  month : Nat
  day : Nat
deriving DecidableEq, Repr

/-- A Python `datetime.datetime` as constructed by `PyDateTime::new`
(naive: the code always passes `None` for the timezone). -/
structure PyDateTimeV where
  year : Int
  month : Nat
  day : Nat
  hour : Nat
  minute : Nat
  second : Nat
  microsecond : Nat
deriving DecidableEq, Repr

/-- Errors of the temporal entry points (each is a `PyValueError` in the
source; the constructors keep the data the messages carry). -/
inductive TemporalErr where
  | emptyInput
  | unparseableDate (input : String) (formats : List String)
  | unparseableDateTime (input : String) (formats : List String)
  | invalidComponent
  | invalidTimestamp
deriving DecidableEq, Repr

/-- Model of `PyDate::new`: CPython accepts `1 ≤ year ≤ 9999` and a valid
calendar date, raising `ValueError` otherwise (surfaced by the `?` in the
Rust sources). -/
def pyDateNew (y : Int) (m d : Nat) : Except TemporalErr PyDateV :=
  if (1 ≤ y ∧ y ≤ 9999) ∧ validYmd y m d then .ok ⟨y, m, d⟩
  else .error .invalidComponent

/-- Model of `PyDateTime::new` (naive), with CPython's component bounds. -/
def pyDateTimeNew (y : Int) (m d h mi s us : Nat) : Except TemporalErr PyDateTimeV :=
  if (1 ≤ y ∧ y ≤ 9999) ∧ validYmd y m d ∧ h ≤ 23 ∧ mi ≤ 59 ∧ s ≤ 59 ∧ us ≤ 999999 then
    .ok ⟨y, m, d, h, mi, s, us⟩
  else .error .invalidComponent

/-- Model of Python `datetime.fromtimestamp(ts)` at an integral `f64`
timestamp, as invoked through `PyDateTime::from_timestamp(py, ts, None)`.
CPython converts in the process-local timezone; the conversion is
modelled in UTC (the zone only shifts which wall-clock fields come back,
never the sub-second part, and the repository treats the result as a
naive datetime). -/
def pyDateTimeFromTimestamp (ts : Int) : Except TemporalErr PyDateTimeV :=
  let days : Int := Int.fdiv ts 86400
  let rem : Nat := (ts - days * 86400).toNat
  let ymd := civilFromDays days
  pyDateTimeNew ymd.1 ymd.2.1 ymd.2.2 (rem / 3600) (rem % 3600 / 60) (rem % 60) 0

/-! ## Model of chrono's `strptime`-style parsing

The repository uses `NaiveDate::parse_from_str` / `NaiveDateTime::parse_from_str`
/ `NaiveTime::parse_from_str` with formats built from the directives
`%Y %m %d %H %M %S %.f` plus literal characters.  The model reproduces
chrono's behaviour for exactly these directives:

* a numeric directive first skips leading whitespace, then max-munches
  digits (at most 4 for `%Y`, at most 2 for the others); with an explicit
  sign `%Y` accepts any number of digits;
* whitespace in the format matches any run (possibly empty) of input
  whitespace;
* `%.f` matches either nothing, or a dot followed by at least one digit:
  the first nine digits give nanoseconds, further digits are consumed and
  ignored;
* setting the same field twice with different values fails;
* the entire input must be consumed (chrono's `TOO_LONG`), and the
  collected fields must assemble into a valid calendar date / time
  (chrono's year range `-262144..=262143`; second-60 leap-second inputs
  are not modelled);
* a format containing any other directive is modelled as never matching
  anything (the repository's built-in formats use no other directive).
-/

inductive ChronoItem where
  | lit (c : Char)
  | space
  | year
  | month
  | day
  | hour
  | minute
  | second
  | nanoDotF
deriving DecidableEq, Repr

/-- Translate a chrono format string into items; fails on directives
outside the modelled set. -/
def parseChronoFormat : List Char → Option (List ChronoItem)
  | [] => some []
  | '%' :: 'Y' :: rs => (parseChronoFormat rs).map (ChronoItem.year :: ·)
  | '%' :: 'm' :: rs => (parseChronoFormat rs).map (ChronoItem.month :: ·)
  | '%' :: 'd' :: rs => (parseChronoFormat rs).map (ChronoItem.day :: ·)
  | '%' :: 'H' :: rs => (parseChronoFormat rs).map (ChronoItem.hour :: ·)
  | '%' :: 'M' :: rs => (parseChronoFormat rs).map (ChronoItem.minute :: ·)
  | '%' :: 'S' :: rs => (parseChronoFormat rs).map (ChronoItem.second :: ·)
  | '%' :: '.' :: 'f' :: rs => (parseChronoFormat rs).map (ChronoItem.nanoDotF :: ·)
  | '%' :: '%' :: rs => (parseChronoFormat rs).map (ChronoItem.lit '%' :: ·)
  | '%' :: _ => none
  | c :: rs =>
      (parseChronoFormat rs).map
        ((if rustIsWhitespace c then ChronoItem.space else ChronoItem.lit c) :: ·)

/-- Fields collected while matching (chrono's `Parsed`). -/
structure ChronoParsed where
  year : Option Int := none
  month : Option Nat := none
  day : Option Nat := none
  hour : Option Nat := none
  minute : Option Nat := none
  second : Option Nat := none
  nano : Option Nat := none
deriving DecidableEq, Repr

/-- Set a `Parsed` field: fails if already set to a different value. -/
def setOnce {α : Type} [DecidableEq α] (o : Option α) (v : α) : Option (Option α) :=
  match o with
  | none => some (some v)
  | some w => if w = v then some (some v) else none

/-- Numeric value of a digit list (most significant first). -/
def digitsToNat (ds : List Char) : Nat :=
  ds.foldl (fun a c => a * 10 + (c.toNat - 48)) 0

/-- Max-munch at most `maxW` digits; fails when no digit is present. -/
def scanNum (maxW : Nat) (cs : List Char) : Option (Nat × List Char) :=
  let ds := (cs.takeWhile Char.isDigit).take maxW
  if ds.isEmpty then none else some (digitsToNat ds, cs.drop ds.length)

/-- Nanoseconds denoted by a fraction-digit list: first nine digits,
right-padded to nine. -/
def nanoOfDigits (ds : List Char) : Nat :=
  let d9 := ds.take 9
  digitsToNat d9 * 10 ^ (9 - d9.length)

/-- Run a chrono item list over the input (chrono's `parse_internal`). -/
def runChrono : List ChronoItem → List Char → ChronoParsed → Option ChronoParsed
  | [], cs, p => if cs.isEmpty then some p else none
  | .lit c :: its, cs, p =>
      match cs with
      | c' :: cs' => if c' = c then runChrono its cs' p else none
      | [] => none
  | .space :: its, cs, p => runChrono its (cs.dropWhile rustIsWhitespace) p
  | .year :: its, cs, p =>
      match cs.dropWhile rustIsWhitespace with
      | '+' :: cs2 =>
          match scanNum cs2.length cs2 with
          | none => none
          | some (v, rest) =>
              match setOnce p.year (Int.ofNat v) with
              | none => none
              | some o => runChrono its rest { p with year := o }
      | '-' :: cs2 =>
          match scanNum cs2.length cs2 with
          | none => none
          | some (v, rest) =>
              match setOnce p.year (-(Int.ofNat v)) with
              | none => none
              | some o => runChrono its rest { p with year := o }
      | cs2 =>
          match scanNum 4 cs2 with
          | none => none
          | some (v, rest) =>
              match setOnce p.year (Int.ofNat v) with
              | none => none
              | some o => runChrono its rest { p with year := o }
  | .month :: its, cs, p =>
      match scanNum 2 (cs.dropWhile rustIsWhitespace) with
      | none => none
      | some (v, rest) =>
          match setOnce p.month v with
          | none => none
          | some o => runChrono its rest { p with month := o }
  | .day :: its, cs, p =>
      match scanNum 2 (cs.dropWhile rustIsWhitespace) with
      | none => none
      | some (v, rest) =>
          match setOnce p.day v with
          | none => none
          | some o => runChrono its rest { p with day := o }
  | .hour :: its, cs, p =>
      match scanNum 2 (cs.dropWhile rustIsWhitespace) with
      | none => none
      | some (v, rest) =>
          match setOnce p.hour v with
          | none => none
          | some o => runChrono its rest { p with hour := o }
  | .minute :: its, cs, p =>
      match scanNum 2 (cs.dropWhile rustIsWhitespace) with
      | none => none
      | some (v, rest) =>
          match setOnce p.minute v with
          | none => none
          | some o => runChrono its rest { p with minute := o }
  | .second :: its, cs, p =>
      match scanNum 2 (cs.dropWhile rustIsWhitespace) with
      | none => none
      | some (v, rest) =>
          match setOnce p.second v with
          | none => none
          | some o => runChrono its rest { p with second := o }
  | .nanoDotF :: its, cs, p =>
      match cs with
      | '.' :: cs2 =>
          let ds := cs2.takeWhile Char.isDigit
          if ds.isEmpty then none
          else
            match setOnce p.nano (nanoOfDigits ds) with
            | none => none
            | some o => runChrono its (cs2.drop ds.length) { p with nano := o }
      | _ => runChrono its cs p

/-- chrono's representable year range (`MIN_YEAR = i32::MIN >> 13`,
`MAX_YEAR = i32::MAX >> 13`). -/
def chronoYearOk (y : Int) : Bool :=
  decide (-262144 ≤ y) && decide (y ≤ 262143)

/-- Assemble a `NaiveDate` (chrono `Parsed::to_naive_date`): needs year,
month and day, forming a valid in-range date; other fields are ignored. -/
def ChronoParsed.toDate (p : ChronoParsed) : Option (Int × Nat × Nat) :=
  match p.year, p.month, p.day with
  | some y, some m, some d =>
      if chronoYearOk y && validYmd y m d then some (y, m, d) else none
  | _, _, _ => none

/-- A chrono `NaiveDateTime` (nanosecond resolution). -/
structure ChronoDT where
  year : Int
  month : Nat
  day : Nat
  hour : Nat
  minute : Nat
  second : Nat
  nano : Nat
deriving DecidableEq, Repr

/-- Assemble a `NaiveDateTime` from parsed fields: date plus hour and
minute are required, second and nanosecond default to zero. -/
def ChronoParsed.toDateTime (p : ChronoParsed) : Option ChronoDT :=
  match p.year, p.month, p.day, p.hour, p.minute with
  | some y, some m, some d, some h, some mi =>
      let s := p.second.getD 0
      let nano := p.nano.getD 0
      if chronoYearOk y && validYmd y m d && h ≤ 23 && mi ≤ 59 && s ≤ 59 then
        some ⟨y, m, d, h, mi, s, nano⟩
      else none
  | _, _, _, _, _ => none

/-- Assemble a `NaiveTime` (`Parsed::to_naive_time`): hour and minute are
required, second defaults to zero. -/
def ChronoParsed.toTimeOfDay (p : ChronoParsed) : Option (Nat × Nat × Nat) :=
  match p.hour, p.minute with
  | some h, some mi =>
      let s := p.second.getD 0
      if h ≤ 23 && mi ≤ 59 && s ≤ 59 then some (h, mi, s) else none
  | _, _ => none

/-- Model of `NaiveDate::parse_from_str input fmt`. -/
def chronoParseDate (input fmt : String) : Option (Int × Nat × Nat) :=
  match parseChronoFormat fmt.toList with
  | none => none
  | some items => (runChrono items input.toList {}).bind ChronoParsed.toDate

/-- Model of `NaiveDateTime::parse_from_str input fmt`. -/
def chronoParseDateTime (input fmt : String) : Option ChronoDT :=
  match parseChronoFormat fmt.toList with
  | none => none
  | some items => (runChrono items input.toList {}).bind ChronoParsed.toDateTime

/-- Model of `NaiveTime::parse_from_str input fmt`. -/
def chronoParseTime (input fmt : String) : Option (Nat × Nat × Nat) :=
  match parseChronoFormat fmt.toList with
  | none => none
  | some items => (runChrono items input.toList {}).bind ChronoParsed.toTimeOfDay

/-- Seconds since the Unix epoch of a chrono `NaiveDateTime`
(`NaiveDateTime::and_utc().timestamp()`, which discards the sub-second
part). -/
def ChronoDT.epochSeconds (dt : ChronoDT) : Int :=
  daysFromCivil dt.year dt.month dt.day * 86400 +
    dt.hour * 3600 + dt.minute * 60 + dt.second

/-- Microseconds since the Unix epoch
(`NaiveDateTime::and_utc().timestamp_micros()`). -/
def ChronoDT.timestampMicros (dt : ChronoDT) : Int :=
  dt.epochSeconds * 1000000 + dt.nano / 1000

/-- Rust `x as u32` on an `i64`: wrap modulo `2^32`. -/
def wrapU32 (n : Int) : Nat := (n % 4294967296).toNat

/-! ## Model of speedate (`Date::parse_str`, `DateTime::parse_str`)

speedate accepts the RFC-3339 shapes below, and otherwise falls back to
reading the whole input as a unix timestamp.  Modelled here:

* date: exactly `YYYY-MM-DD` (four-digit year, two-digit month/day,
  valid calendar date);
* datetime: date, separator `T`/`t`/space, `HH:MM`, optional `:SS`,
  optional fraction of one to six digits (seven or more digits fail with
  `SecondFractionTooLong`), optional offset `Z`/`z`/`±HH:MM`/`±HHMM`;
  the parsed offset is carried by the Rust struct but never read by the
  repository code, so the model returns only the wall-clock fields;
* timestamp fallback: an unsigned all-digit input is read as seconds
  (milliseconds above the `20_000_000_000` watershed); signed and
  fractional timestamp strings are not modelled (they fail in the model).
  The resulting year must be at most 9999.
-/

/-- The wall-clock fields of a speedate `DateTime`. -/
structure SpeeDateTimeV where
  year : Nat
  month : Nat
  day : Nat
  hour : Nat
  minute : Nat
  second : Nat
  microsecond : Nat
deriving DecidableEq, Repr

/-- Exactly two digits. -/
def take2D : List Char → Option (Nat × List Char)
  | a :: b :: rest =>
      if a.isDigit && b.isDigit then some ((a.toNat - 48) * 10 + (b.toNat - 48), rest)
      else none
  | _ => none

/-- Exactly four digits. -/
def take4D : List Char → Option (Nat × List Char)
  | a :: b :: c :: d :: rest =>
      if a.isDigit && b.isDigit && c.isDigit && d.isDigit then
        some (digitsToNat [a, b, c, d], rest)
      else none
  | _ => none

/-- Parse the `YYYY-MM-DD` prefix, checking calendar validity. -/
def speedateYmd (cs : List Char) : Option (Nat × Nat × Nat × List Char) :=
  match take4D cs with
  | none => none
  | some (y, cs1) =>
      match cs1 with
      | '-' :: cs2 =>
          match take2D cs2 with
          | none => none
          | some (m, cs3) =>
              match cs3 with
              | '-' :: cs4 =>
                  match take2D cs4 with
                  | none => none
                  | some (d, cs5) =>
                      if validYmd y m d then some (y, m, d, cs5) else none
              | _ => none
      | _ => none

/-- speedate's unix-timestamp fallback: seconds, or milliseconds above
the watershed. -/
def speedateTsSplit (n : Nat) : Nat × Nat :=
  if n > 20000000000 then (n / 1000, n % 1000 * 1000) else (n, 0)

/-- An unsigned all-digit string (the modelled timestamp syntax). -/
def allDigits (cs : List Char) : Option Nat :=
  if cs.isEmpty then none
  else if cs.all Char.isDigit then some (digitsToNat cs) else none

/-- Model of `speedate::Date::parse_str`. -/
def speedateDateParse (s : String) : Option (Nat × Nat × Nat) :=
  match speedateYmd s.toList with
  | some (y, m, d, []) => some (y, m, d)
  | some _ => none
  | none =>
      match allDigits s.toList with
      | none => none
      | some n =>
          let secs := (speedateTsSplit n).1
          let ymd := civilFromDays ((secs : Int).fdiv 86400)
          if ymd.1 ≤ 9999 then some (ymd.1.toNat, ymd.2.1, ymd.2.2) else none

/-- Parse `HH:MM[:SS[.ffffff]]`; seven or more fraction digits fail. -/
def speedateTime (cs : List Char) : Option (Nat × Nat × Nat × Nat × List Char) :=
  match take2D cs with
  | none => none
  | some (h, cs1) =>
      match cs1 with
      | ':' :: cs2 =>
          match take2D cs2 with
          | none => none
          | some (mi, cs3) =>
              if h ≤ 23 && mi ≤ 59 then
                match cs3 with
                | ':' :: cs4 =>
                    match take2D cs4 with
                    | none => none
                    | some (sec, cs5) =>
                        if sec ≤ 59 then
                          match cs5 with
                          | '.' :: cs6 =>
                              let ds := cs6.takeWhile Char.isDigit
                              if ds.isEmpty || ds.length > 6 then none
                              else
                                some (h, mi, sec, digitsToNat ds * 10 ^ (6 - ds.length),
                                  cs6.drop ds.length)
                          | _ => some (h, mi, sec, 0, cs5)
                        else none
                | _ => some (h, mi, 0, 0, cs3)
              else none
      | _ => none

/-- Does the rest of the input form a valid (possibly absent) timezone
offset consuming everything? -/
def speedateOffsetOk : List Char → Bool
  | [] => true
  | ['Z'] => true
  | ['z'] => true
  | c :: rest =>
      if c == '+' || c == '-' then
        match take2D rest with
        | none => false
        | some (oh, rest1) =>
            let rest2 := match rest1 with
              | ':' :: r => r
              | r => r
            match take2D rest2 with
            | none => false
            | some (om, rest3) => oh ≤ 23 && om ≤ 59 && rest3.isEmpty
      else false

/-- Model of `speedate::DateTime::parse_str`. -/
def speedateDateTimeParse (s : String) : Option SpeeDateTimeV :=
  match speedateYmd s.toList with
  | some (y, m, d, sep :: rest) =>
      if sep == 'T' || sep == 't' || sep == ' ' then
        match speedateTime rest with
        | none => none
        | some (h, mi, sec, micro, rest2) =>
            if speedateOffsetOk rest2 then some ⟨y, m, d, h, mi, sec, micro⟩ else none
      else none
  | some (_, _, _, []) => none
  | none =>
      match allDigits s.toList with
      | none => none
      | some n =>
          let sm := speedateTsSplit n
          let days := sm.1 / 86400
          let rem := sm.1 % 86400
          let ymd := civilFromDays (days : Int)
          if ymd.1 ≤ 9999 then
            some ⟨ymd.1.toNat, ymd.2.1, ymd.2.2, rem / 3600, rem % 3600 / 60, rem % 60, sm.2⟩
          else none

/-! ## Model of chrono's `DateTime::parse_from_rfc3339` -/

/-- Model of `DateTime::parse_from_rfc3339`: strict RFC-3339 with a
mandatory offset (`Z`/`z` or `±HH:MM` with the colon), date-time
separator `T`/`t`/space, mandatory seconds, optional dot-fraction (all
digits consumed, the first nine significant).  Returns the naive
wall-clock fields and the offset in minutes.  Leap-second inputs
(second 60) are not modelled. -/
def parseRfc3339 (s : String) : Option (ChronoDT × Int) :=
  match speedateYmd s.toList with
  | some (y, m, d, sep :: rest) =>
      if sep == 'T' || sep == 't' || sep == ' ' then
        match take2D rest with
        | none => none
        | some (h, r1) =>
            match r1 with
            | ':' :: r2 =>
                match take2D r2 with
                | none => none
                | some (mi, r3) =>
                    match r3 with
                    | ':' :: r4 =>
                        match take2D r4 with
                        | none => none
                        | some (sec, r5) =>
                            let fr : Option (Nat × List Char) :=
                              match r5 with
                              | '.' :: r6 =>
                                  let ds := r6.takeWhile Char.isDigit
                                  if ds.isEmpty then none
                                  else some (nanoOfDigits ds, r6.drop ds.length)
                              | _ => some (0, r5)
                            match fr with
                            | none => none
                            | some (nano, r7) =>
                                let off : Option Int :=
                                  match r7 with
                                  | ['Z'] => some 0
                                  | ['z'] => some 0
                                  | c :: r8 =>
                                      if c == '+' || c == '-' then
                                        match take2D r8 with
                                        | some (oh, ':' :: r9) =>
                                            match take2D r9 with
                                            | some (om, []) =>
                                                if oh ≤ 23 && om ≤ 59 then
                                                  let mins : Int := oh * 60 + om
                                                  some (if c == '-' then -mins else mins)
                                                else none
                                            | _ => none
                                        | _ => none
                                      else none
                                  | [] => none
                                match off with
                                | none => none
                                | some offMin =>
                                    if h ≤ 23 && mi ≤ 59 && sec ≤ 59 then
                                      some (⟨y, m, d, h, mi, sec, nano⟩, offMin)
                                    else none
                    | _ => none
            | _ => none
      else none
  | _ => none

/-! ## `to_timestamp` support (chrono `DateTime::from_timestamp`) -/

/-- Timestamp of `NaiveDateTime::MIN.and_utc()` (chrono's minimum date
at midnight), expressed through the civil-day count. -/
def chronoMinTimestamp : Int := daysFromCivil (-262144) 1 1 * 86400

/-- Timestamp of `NaiveDateTime::MAX.and_utc()` truncated to seconds
(chrono's maximum date at 23:59:59). -/
def chronoMaxTimestamp : Int := daysFromCivil 262143 12 31 * 86400 + 86399

/-- Model of chrono `DateTime::from_timestamp(secs, nsecs)`: `nsecs` are
NANOseconds within the second.  Returns `none` outside the representable
range.  The leap-second headroom (`nsecs ≥ 10^9`) is not modelled; every
call in the repository passes `nsecs ≤ 10^6`. -/
def chronoFromTimestamp (secs : Int) (nsecs : Nat) : Option ChronoDT :=
  if chronoMinTimestamp ≤ secs ∧ secs ≤ chronoMaxTimestamp ∧ nsecs < 1000000000 then
    let days : Int := Int.fdiv secs 86400
    let rem : Nat := (secs - days * 86400).toNat
    let ymd := civilFromDays days
    some ⟨ymd.1, ymd.2.1, ymd.2.2, rem / 3600, rem % 3600 / 60, rem % 60, nsecs⟩
  else none

/-- Rust `f64::round`: round half away from zero (modelled on `ℚ`). -/
def rustRound (q : ℚ) : Int :=
  if 0 ≤ q then (q + 1 / 2).floor else -(-q + 1 / 2).floor

/-- Rust `f64::trunc` (toward zero). -/
def rustTrunc (q : ℚ) : Int :=
  if 0 ≤ q then q.floor else q.ceil

/-- Rust `f64::fract`: `self - self.trunc()`. -/
def rustFract (q : ℚ) : ℚ := q - rustTrunc q

namespace RsParsers

/-- The fixed fallback format list of `rs_parsers::to_date` and
`rs_parsers::to_datetime` (identical vectors in the source). -/
def dateFormats : List String :=
  ["%Y-%m-%d", "%m/%d/%Y", "%m-%d-%Y", "%d-%m-%Y", "%Y/%m/%d",
   "%Y-%m-%dT%H:%M:%S%.f", "%Y-%m-%d %H:%M:%S", "%d/%m/%Y", "%d.%m.%Y"]

/-- `rs_parsers` pushes the caller's custom format, when present, after
all built-in formats. -/
def formatsWithCustom (customFormat : Option String) : List String :=
  dateFormats ++ (match customFormat with
    | some f => [f]
    | none => [])

/-- Embedding of `rs_parsers::to_date` (lib.rs lines 207-259): empty
check, speedate fast path, then the chrono format cascade. -/
def to_date (input : String) (customFormat : Option String) : Except TemporalErr PyDateV :=
  if (rustTrim input).isEmpty then .error .emptyInput
  else
    match speedateDateParse input with
    | some (y, m, d) => pyDateNew y m d
    | none =>
        let formats := formatsWithCustom customFormat
        match formats.findSome? (fun fmt => chronoParseDate input fmt) with
        | some (y, m, d) => pyDateNew y m d
        | none => .error (.unparseableDate input formats)

/-- Embedding of `rs_parsers::to_datetime` (lib.rs lines 263-336): empty
check, speedate fast path, RFC-3339-with-offset path (normalised to UTC
and rebuilt from the whole-second timestamp), then the format cascade
whose microsecond field is `timestamp_micros() as u32 % 1_000_000`. -/
def to_datetime (input : String) (customFormat : Option String) :
    Except TemporalErr PyDateTimeV :=
  if (rustTrim input).isEmpty then .error .emptyInput
  else
    match speedateDateTimeParse input with
    | some dt =>
        pyDateTimeNew dt.year dt.month dt.day dt.hour dt.minute dt.second dt.microsecond
    | none =>
        match parseRfc3339 input with
        | some (naive, offMin) =>
            pyDateTimeFromTimestamp (naive.epochSeconds - offMin * 60)
        | none =>
            let formats := formatsWithCustom customFormat
            match formats.findSome? (fun fmt => chronoParseDateTime input fmt) with
            | some dt =>
                pyDateTimeNew dt.year dt.month dt.day dt.hour dt.minute dt.second
                  (wrapU32 dt.timestampMicros % 1000000)
            | none => .error (.unparseableDateTime input formats)

/-- Embedding of `rs_parsers::to_timestamp` (lib.rs lines 165-196).  The
`f64` argument is modelled as an exact rational.  Note the source splits
the fraction into `microseconds` and then passes that value to chrono's
`DateTime::from_timestamp`, whose second argument is in NANOseconds; the
Python datetime is then built with `nanosecond() / 1_000` microseconds. -/
def to_timestamp (timestamp : ℚ) : Except TemporalErr PyDateTimeV :=
  let seconds : Int := timestamp.floor
  let microseconds : Nat := (rustRound ((timestamp - seconds) * 1000000)).toNat
  if seconds < chronoMinTimestamp ∨ chronoMaxTimestamp < seconds then
    .error .invalidTimestamp
  else
    match chronoFromTimestamp seconds microseconds with
    | some dt =>
        pyDateTimeNew dt.year dt.month dt.day dt.hour dt.minute dt.second (dt.nano / 1000)
    | none => .error .invalidTimestamp

end RsParsers

namespace RstConverters

/-- The fixed fallback format list of `rst_converters::to_date` and
`rst_converters::to_datetime`. -/
def dateFormats : List String :=
  ["%Y-%m-%d", "%m/%d/%Y", "%m-%d-%Y", "%d-%m-%Y", "%Y/%m/%d",
   "%Y-%m-%dT%H:%M:%S%.f", "%Y-%m-%d %H:%M:%S", "%d/%m/%Y", "%d.%m.%Y"]

/-- `rst_converters` always appends `custom_format.unwrap_or_default()`
(the empty string when absent) as the last list element. -/
def formatsWithCustom (customFormat : Option String) : List String :=
  dateFormats ++ [customFormat.getD ""]

/-- Embedding of `rst_converters::to_date` (lib.rs lines 104-145). -/
def to_date (input : String) (customFormat : Option String) : Except TemporalErr PyDateV :=
  if (rustTrim input).isEmpty then .error .emptyInput
  else
    match speedateDateParse input with
    | some (y, m, d) => pyDateNew y m d
    | none =>
        let formats := formatsWithCustom customFormat
        match formats.findSome? (fun fmt => chronoParseDate input fmt) with
        | some (y, m, d) => pyDateNew y m d
        | none => .error (.unparseableDate input formats)

/-- Embedding of `rst_converters::to_datetime` (lib.rs lines 147-217):
empty check, speedate fast path, RFC-3339 path, two stand-alone ISO
attempts (`%Y-%m-%dT%H:%M:%S`, then the same with `%.f`), then the
format cascade. -/
def to_datetime (input : String) (customFormat : Option String) :
    Except TemporalErr PyDateTimeV :=
  if (rustTrim input).isEmpty then .error .emptyInput
  else
    match speedateDateTimeParse input with
    | some dt =>
        pyDateTimeNew dt.year dt.month dt.day dt.hour dt.minute dt.second dt.microsecond
    | none =>
        match parseRfc3339 input with
        | some (naive, offMin) =>
            pyDateTimeFromTimestamp (naive.epochSeconds - offMin * 60)
        | none =>
            match chronoParseDateTime input "%Y-%m-%dT%H:%M:%S" with
            | some dt =>
                pyDateTimeNew dt.year dt.month dt.day dt.hour dt.minute dt.second 0
            | none =>
                match chronoParseDateTime input "%Y-%m-%dT%H:%M:%S%.f" with
                | some dt =>
                    pyDateTimeNew dt.year dt.month dt.day dt.hour dt.minute dt.second
                      (wrapU32 dt.timestampMicros % 1000000)
                | none =>
                    let formats := formatsWithCustom customFormat
                    match formats.findSome? (fun fmt => chronoParseDateTime input fmt) with
                    | some dt =>
                        pyDateTimeNew dt.year dt.month dt.day dt.hour dt.minute dt.second
                          (wrapU32 dt.timestampMicros % 1000000)
                    | none => .error (.unparseableDateTime input formats)

/-- Embedding of `rst_converters::to_timestamp` (lib.rs lines 71-94):
like the `rs_parsers` version but using `fract()` (toward-zero fraction)
and no explicit range pre-check (`DateTime::<Utc>::from_timestamp`
returning `None` yields the error), with the microsecond field read back
via `timestamp_subsec_micros()` (again nanoseconds divided by 1000). -/
def to_timestamp (timestamp : ℚ) : Except TemporalErr PyDateTimeV :=
  let seconds : Int := timestamp.floor
  let microseconds : Nat := (rustRound (rustFract timestamp * 1000000)).toNat
  match chronoFromTimestamp seconds microseconds with
  | some dt =>
      pyDateTimeNew dt.year dt.month dt.day dt.hour dt.minute dt.second (dt.nano / 1000)
  | none => .error .invalidTimestamp

end RstConverters

/-! ## The Python value model

Values handed to the PyO3 entry points.  A zero-argument callable whose
invocation returns `v` is modelled by `callable v`; the Rust code can
only observe a callable through `call0()`, which the model equates with
unwrapping the constructor (each unwrap is one invocation). -/

inductive PyValue where
  | pynone
  | pybool (b : Bool)
  | pyint (n : Int)
  | pyfloat (q : ℚ)
  | pystr (s : String)
  | pybytes (bs : List Nat)
  | pydate (d : PyDateV)
  | pydatetime (dt : PyDateTimeV)
  | pytime (h mi s us : Nat)
  | pyuuid (s : String)
  | pydecimal (s : String)
  | callable (v : PyValue)
deriving DecidableEq, Repr

/-- The Python type name as observed via `get_type().name()`. -/
def PyValue.typeName : PyValue → String
  | .pynone => "NoneType"
  | .pybool _ => "bool"
  | .pyint _ => "int"
  | .pyfloat _ => "float"
  | .pystr _ => "str"
  | .pybytes _ => "bytes"
  | .pydate _ => "date"
  | .pydatetime _ => "datetime"
  | .pytime _ _ _ _ => "time"
  | .pyuuid _ => "UUID"
  | .pydecimal _ => "Decimal"
  | .callable _ => "function"

/-- `is_callable()`. -/
def PyValue.isCallable : PyValue → Bool
  | .callable _ => true
  | _ => false

/-- Model of Python `str(v)` as used by the coercers.  Values whose text
form matters to the code (strings, UUIDs, decimals, ints, bools, None)
are rendered faithfully; the remaining reprs are opaque markers in
angle brackets, which — like the real reprs `<function ...>`,
`b'...'`, `datetime.date(...)` — are never canonical UUID text and
never parse as numbers. -/
def pyStr : PyValue → String
  | .pynone => "None"
  | .pybool b => if b then "True" else "False"
  | .pyint n => toString n
  | .pyfloat _ => "<float>"
  | .pystr s => s
  | .pybytes _ => "<bytes>"
  | .pydate _ => "<date>"
  | .pydatetime _ => "<datetime>"
  | .pytime _ _ _ _ => "<time>"
  | .pyuuid s => s
  | .pydecimal s => s
  | .callable _ => "<callable>"

/-- `is_instance::<PyInt>`: Python `bool` is a subclass of `int`. -/
def isInstanceOfInt : PyValue → Bool
  | .pyint _ => true
  | .pybool _ => true
  | _ => false

/-- PyO3 `extract::<String>` (only `str` succeeds). -/
def extractString : PyValue → Option String
  | .pystr s => some s
  | _ => none

/-- PyO3 `extract::<i64>`: `int` within the `i64` range, and `bool`
(an `int` subclass). -/
def extractI64 : PyValue → Option Int
  | .pyint n => if -(2 ^ 63) ≤ n ∧ n < 2 ^ 63 then some n else none
  | .pybool b => some (if b then 1 else 0)
  | _ => none

/-- PyO3 `extract::<f64>`: `float`, `int` and `bool` convert (the f64
rounding of huge ints is not modelled; no theorem feeds one). -/
def extractF64 : PyValue → Option ℚ
  | .pyfloat q => some q
  | .pyint n => some (n : ℚ)
  | .pybool b => some (if b then 1 else 0)
  | _ => none

/-- PyO3 `extract::<bool>` (exactly `bool`). -/
def extractBool : PyValue → Option Bool
  | .pybool b => some b
  | _ => none

/-- PyO3 `extract::<&PyDate>`: `datetime.datetime` is a subclass of
`datetime.date`, so both succeed. -/
def extractPyDate : PyValue → Option PyDateV
  | .pydate d => some d
  | .pydatetime dt => some ⟨dt.year, dt.month, dt.day⟩
  | _ => none

/-- PyO3 `extract::<&PyDateTime>`. -/
def extractPyDateTime : PyValue → Option PyDateTimeV
  | .pydatetime dt => some dt
  | _ => none

/-- Rust `str::parse::<i64>`: optional sign, one or more digits, nothing
else, value within the `i64` range. -/
def rustParseI64 (s : String) : Option Int :=
  let signed : Option (Bool × List Char) :=
    match s.toList with
    | '+' :: ds => some (false, ds)
    | '-' :: ds => some (true, ds)
    | ds => some (false, ds)
  match signed with
  | some (neg, ds) =>
      match allDigits ds with
      | none => none
      | some n =>
          let v : Int := if neg then -(n : Int) else n
          if -(2 ^ 63) ≤ v ∧ v < 2 ^ 63 then some v else none
  | none => none

/-! ## Model of `uuid::Uuid::parse_str`

Accepted forms: hyphenated (8-4-4-4-12 hex digits), simple (32 hex
digits), and either of those wrapped in braces or prefixed by
`urn:uuid:`.  The canonical rendering (`Uuid::to_string`) is lowercase
hyphenated. -/

/-- Hex-digit test. -/
def isHexDigitChar (c : Char) : Bool :=
  c.isDigit || ('a' ≤ c && c ≤ 'f') || ('A' ≤ c && c ≤ 'F')

/-- Split a character list at hyphens. -/
def splitHyphens : List Char → List (List Char)
  | [] => [[]]
  | '-' :: rest => [] :: splitHyphens rest
  | c :: rest =>
      match splitHyphens rest with
      | g :: gs => (c :: g) :: gs
      | [] => [[c]]

/-- Canonical lowercase hyphenated rendering of a bare UUID body
(hyphenated or simple form). -/
def uuidCanonicalBody (cs : List Char) : Option String :=
  let segs := splitHyphens cs
  if segs.map List.length = [8, 4, 4, 4, 12] &&
      segs.all (fun seg => seg.all isHexDigitChar) then
    some ⟨cs.map Char.toLower⟩
  else if cs.length == 32 && cs.all isHexDigitChar then
    let lc := cs.map Char.toLower
    some ⟨lc.take 8 ++ '-' :: ((lc.drop 8).take 4) ++ '-' :: ((lc.drop 12).take 4) ++
      '-' :: ((lc.drop 16).take 4) ++ '-' :: lc.drop 20⟩
  else none

/-- Model of `Uuid::parse_str` followed by `to_string`. -/
def uuidParse (s : String) : Option String :=
  let cs := s.toList
  if cs.take 9 = "urn:uuid:".toList then uuidCanonicalBody (cs.drop 9)
  else if cs.head? = some '{' && cs.getLast? = some '}' then
    uuidCanonicalBody (cs.drop 1).dropLast
  else uuidCanonicalBody cs

/-! ## `rs_parsers` value coercers -/

/-- Errors of the value coercers (`PyValueError`s carrying the data
their messages name). -/
inductive CoerceErr where
  | invalidIntegerString (s : String)
  | invalidConversionToInteger (v : PyValue)
  | invalidFloatString (s : String)
  | invalidConversionToFloat (v : PyValue)
  | invalidDecimalString (s : String)
  | invalidDecimalFromFloat (q : ℚ)
  | invalidConversionToDecimal (v : PyValue)
deriving DecidableEq, Repr

/-! ## Model of `rust_decimal` -/

/-- Model of `rust_decimal::Decimal::from_str`: optional sign, digits
with at most one dot, at least one digit; mantissa must fit 96 bits and
the scale is at most 28 (the crate's capacity). Returns (mantissa,
scale) with the sign on the mantissa. -/
def rustDecimalParse (s : String) : Option (Int × Nat) :=
  let signedBody : Bool × List Char :=
    match s.toList with
    | '+' :: ds => (false, ds)
    | '-' :: ds => (true, ds)
    | ds => (false, ds)
  let neg := signedBody.1
  let body := signedBody.2
  let intPart := body.takeWhile Char.isDigit
  let rest := body.drop intPart.length
  let fracPart : Option (List Char) :=
    match rest with
    | [] => some []
    | '.' :: fs => if fs.all Char.isDigit then some fs else none
    | _ => none
  match fracPart with
  | none => none
  | some fs =>
      if intPart.isEmpty && fs.isEmpty then none
      else
        let mant : Nat := digitsToNat (intPart ++ fs)
        if fs.length ≤ 28 && mant < 2 ^ 96 then
          some ((if neg then -(mant : Int) else (mant : Int)), fs.length)
        else none

/-- `rust_decimal`'s `Decimal::to_string`: the mantissa with the scale's
decimal places (trailing zeros kept, e.g. scale 3 of 1100 is `1.100`). -/
def decimalToString (m : Int) (scale : Nat) : String :=
  let sign := if m < 0 then "-" else ""
  let ds := toString m.natAbs
  if scale == 0 then sign ++ ds
  else
    let padded := String.mk (List.replicate (scale + 1 - ds.length) '0') ++ ds
    sign ++ padded.dropRight scale ++ "." ++ padded.takeRight scale

/-- Model of `Decimal::from_f64_retain` on the exact rational value of
the float: the smallest scale (at most 28) rendering the value exactly;
values needing more than 28 fractional digits or 96 mantissa bits give
`none`.  (The crate truncates excess bits instead; no theorem depends
on this difference.) -/
def decimalFromF64Retain (q : ℚ) : Option (Int × Nat) :=
  (List.range 29).findSome? (fun k =>
    let scaled : ℚ := q * (10 : ℚ) ^ k
    if scaled.den = 1 ∧ scaled.num.natAbs < 2 ^ 96 then some (scaled.num, k) else none)

namespace RsParsers

/-- Embedding of the `Some` branch of `rs_parsers::to_integer`
(lib.rs lines 444-484), instrumented with the number of callable
invocations performed (second component).  Branches in source order:
already `int` (including `bool`, an `int` subclass), string parse,
callable (call once, then `to_integer(py, Some(result))` — which lands
back in this body), final `extract::<i64>` attempt.  The body has no
`is_none` check, so a Python `None` object reaching it (e.g. returned
by a callable) falls through to the final extract attempt and errors;
the source's `None => Ok(None)` arm matches only the absent argument at
the PyO3 boundary, modelled by `to_integer` below. -/
def toIntegerCount : PyValue → Except CoerceErr (Option PyValue) × Nat
  | .pyint n => (.ok (some (.pyint n)), 0)
  | .pybool b => (.ok (some (.pybool b)), 0)
  | .pystr s =>
      (match rustParseI64 s with
        | some n => .ok (some (.pyint n))
        | none => .error (.invalidIntegerString s), 0)
  | .callable u => ((toIntegerCount u).1, (toIntegerCount u).2 + 1)
  | v =>
      (match extractI64 v with
        | some n => .ok (some (.pyint n))
        | none => .error (.invalidConversionToInteger v), 0)

/-- `rs_parsers::to_integer` (lib.rs lines 439-486): a Python `None`
argument arrives at the PyO3 boundary as Rust `None` (the
`#[pyo3(signature = (obj=None))]` `Option` parameter) and returns
`Ok(None)`; any present object is processed by the body. -/
def to_integer (obj : Option PyValue) : Except CoerceErr (Option PyValue) :=
  match obj with
  | none => .ok none
  | some v => (toIntegerCount v).1

/-- Number of callable invocations `to_integer` performs on the present
object `v`. -/
def toIntegerInvocations (v : PyValue) : Nat :=
  (toIntegerCount v).2

/-- Embedding of the `Some` branch of `rs_parsers::to_float`
(lib.rs lines 493-527), same shape as `toIntegerCount` with the float
grammar (`str::parse::<f64>` is modelled only as far as no theorem
depends on it: decimal forms); like `to_integer`, its body has no
`is_none` check, so a `None` object reaching it errors at the final
extract attempt. -/
def toFloatCount : PyValue → Except CoerceErr (Option PyValue) × Nat
  | .pyfloat q => (.ok (some (.pyfloat q)), 0)
  | .pystr s =>
      (match rustDecimalParse s with
        | some (m, k) => .ok (some (.pyfloat ((m : ℚ) / (10 : ℚ) ^ k)))
        | none => .error (.invalidFloatString s), 0)
  | .callable u => ((toFloatCount u).1, (toFloatCount u).2 + 1)
  | v =>
      (match extractF64 v with
        | some q => .ok (some (.pyfloat q))
        | none => .error (.invalidConversionToFloat v), 0)

/-- `rs_parsers::to_float` (lib.rs lines 488-529): Rust `None` at the
boundary gives `Ok(None)`; a present object is processed by the body. -/
def to_float (obj : Option PyValue) : Except CoerceErr (Option PyValue) :=
  match obj with
  | none => .ok none
  | some v => (toFloatCount v).1

/-- Embedding of the `Some` branch of `rs_parsers::to_decimal`
(lib.rs lines 537-580), instrumented with the invocation count.
Branches in source order: already `Decimal`, string parse via
`rust_decimal`, callable (call once, then `to_decimal(py, Some(result))`
— landing back in this body), float conversion via `from_f64_retain`.
No `is_none` check: a `None` object reaching the body falls through to
the `extract::<f64>` attempt and errors. -/
def toDecimalCount : PyValue → Except CoerceErr (Option PyValue) × Nat
  | .pydecimal s => (.ok (some (.pydecimal s)), 0)
  | .pystr s =>
      (match rustDecimalParse s with
        | some (m, k) => .ok (some (.pydecimal (decimalToString m k)))
        | none => .error (.invalidDecimalString s), 0)
  | .callable u => ((toDecimalCount u).1, (toDecimalCount u).2 + 1)
  | v =>
      (match extractF64 v with
        | some q =>
            (match decimalFromF64Retain q with
              | some (m, k) => .ok (some (.pydecimal (decimalToString m k)))
              | none => .error (.invalidDecimalFromFloat q))
        | none => .error (.invalidConversionToDecimal v), 0)

/-- `rs_parsers::to_decimal` (lib.rs lines 532-581): Rust `None` at the
boundary gives `Ok(None)`; a present object is processed by the body. -/
def to_decimal (obj : Option PyValue) : Except CoerceErr (Option PyValue) :=
  match obj with
  | none => .ok none
  | some v => (toDecimalCount v).1

/-- Number of callable invocations `to_decimal` performs on the present
object `v`. -/
def toDecimalInvocations (v : PyValue) : Nat :=
  (toDecimalCount v).2

/-- Embedding of `rs_parsers::to_uuid_obj` (lib.rs lines 338-383).
`None` maps to no value; an existing `UUID` is returned unchanged; the
second source branch (`pgproto` UUIDs) repeats the first branch's
condition and is unreachable; a callable is invoked once and its
result's `str()` parsed; finally `str(value)` is parsed; every parse
miss falls through, ending in `Ok(None)`. -/
def to_uuid_obj (v : PyValue) : Except CoerceErr (Option PyValue) :=
  match v with
  | .pynone => .ok none
  | .pyuuid _ => .ok (some v)
  | .callable u =>
      match uuidParse (pyStr u) with
      | some c => .ok (some (.pyuuid c))
      | none =>
          match uuidParse (pyStr v) with
          | some c => .ok (some (.pyuuid c))
          | none => .ok none
  | _ =>
      match uuidParse (pyStr v) with
      | some c => .ok (some (.pyuuid c))
      | none => .ok none

/-- Modelled from the spec: the Cython `datamodel.converters.to_uuid`
that `rs_parsers::to_uuid` delegates to is not under `src/`; spec §4.6
describes UUID coercion as: an existing UUID unchanged, a resolvable
invoked once and retried, a string parsed as canonical UUID text, and
any failure yielding no value instead of an error. -/
def specCythonToUuid : PyValue → Option PyValue
  | .pyuuid s => some (.pyuuid s)
  | .callable u =>
      match u with
      | .pyuuid s => some (.pyuuid s)
      | .pystr s => (uuidParse s).map .pyuuid
      | _ => none
  | .pystr s => (uuidParse s).map .pyuuid
  | _ => none

/-- Embedding of `rs_parsers::to_uuid_str` (lib.rs lines 392-422): an
existing `UUID` is returned unchanged; a callable is invoked once and
its result passed to `to_uuid` (the Cython delegate, modelled above); a
string that parses as a UUID is returned as the original string; every
other case yields `Ok(None)`. -/
def to_uuid_str (v : PyValue) : Except CoerceErr (Option PyValue) :=
  match v with
  | .pynone => .ok none
  | .pyuuid _ => .ok (some v)
  | .callable u => .ok (some ((specCythonToUuid u).getD .pynone))
  | _ =>
      match uuidParse (pyStr v) with
      | some _ => .ok (some (.pystr (pyStr v)))
      | none => .ok none

end RsParsers

/-! ## The `rs_core` validation pipeline

`rst_converters` contains a character-identical copy of the functions
below (`validate_datamodel`, `validate_field`, `FieldType`,
`FieldValue`, `get_field_info`, `parse_datamodel`); the embedding is
stated once, for the `rs_core` module the claims cite. -/

namespace RsCore

/-- One dataclass field as the entry points observe it: the key of
`__dataclass_fields__`, the annotation's `PyType::name()` string, and
the instance attribute value. -/
structure FieldDescr where
  name : String
  tyName : String
  value : PyValue
deriving DecidableEq, Repr

/-- Errors of the `rs_core` pipeline. -/
inductive CoreErr where
  | notImplemented (tyName : String)
  | extractFailed (fieldName : String)
deriving DecidableEq, Repr

/-- Embedding of `rs_core::validate_field` (lib.rs lines 46-86): match
on the type name; unsupported names raise `PyTypeError` (the source's
commented-out `Ok(true)` skip alternative is not taken). -/
def validate_field (tyName : String) (v : PyValue) : Except CoreErr Bool :=
  if tyName == "str" then .ok (extractString v).isSome
  else if tyName == "int" then .ok (extractI64 v).isSome
  else if tyName == "float" then .ok (extractF64 v).isSome
  else if tyName == "bool" then .ok (extractBool v).isSome
  else if tyName == "datetime" then .ok (extractPyDateTime v).isSome
  else if tyName == "date" then .ok (extractPyDate v).isSome
  else .error (.notImplemented tyName)

/-- Embedding of `rs_core::validate_datamodel` (lib.rs lines 13-44):
map over the fields in order; a `validate_field` error is caught per
field (printed) and recorded as `false`. -/
def validate_datamodel (fields : List FieldDescr) : List (String × Bool) :=
  fields.map (fun f =>
    (f.name,
      match validate_field f.tyName f.value with
      | .ok b => b
      | .error _ => false))

/-- Embedding of `rs_core::FieldType` (lib.rs lines 88-98). -/
inductive FieldType where
  | str
  | int
  | float
  | bool
  | datetime
  | date
  | time
deriving DecidableEq, Repr

/-- `FieldType::from_str` (lib.rs lines 102-113). -/
def FieldType.from_str (tyName : String) : Option FieldType :=
  if tyName == "str" then some .str
  else if tyName == "int" then some .int
  else if tyName == "float" then some .float
  else if tyName == "bool" then some .bool
  else if tyName == "datetime.datetime" then some .datetime
  else if tyName == "datetime.date" then some .date
  else if tyName == "datetime.time" then some .time
  else none

/-- Embedding of `rs_core::FieldValue` (lib.rs lines 163-173): temporal
values are stored as their own constructors carrying strings. -/
inductive FieldValue where
  | str (s : String)
  | int (n : Int)
  | float (q : ℚ)
  | bool (b : Bool)
  | datetime (s : String)
  | date (s : String)
  | time (s : String)
deriving DecidableEq, Repr

/-- `FieldType::parse` (lib.rs lines 116-145): primitives pass; the
temporal variants demand a `FieldValue::Str` payload — which
`get_field_info` never produces for them (it wraps temporal strings in
their own constructors), so they always fail here. -/
def FieldType.parse (ft : FieldType) (v : FieldValue) : Bool :=
  match ft with
  | .str => true
  | .int => true
  | .float => true
  | .bool => true
  | .datetime =>
      match v with
      | .str s => (parseRfc3339 s).isSome
      | _ => false
  | .date =>
      match v with
      | .str s => (chronoParseDate s "%Y-%m-%d").isSome
      | _ => false
  | .time =>
      match v with
      | .str s => (chronoParseTime s "%H:%M:%S").isSome
      | _ => false

/-- `FieldType::validate` (lib.rs lines 148-159): tag agreement. -/
def FieldType.validate (ft : FieldType) (v : FieldValue) : Bool :=
  match ft, v with
  | .str, .str _ => true
  | .int, .int _ => true
  | .float, .float _ => true
  | .bool, .bool _ => true
  | .datetime, .datetime _ => true
  | .date, .date _ => true
  | .time, .time _ => true
  | _, _ => false

/-- The per-type value extraction of `get_field_info`
(lib.rs lines 205-231); temporal types extract the value as a string. -/
def getFieldValue (ft : FieldType) (v : PyValue) : Option FieldValue :=
  match ft with
  | .str => (extractString v).map .str
  | .int => (extractI64 v).map .int
  | .float => (extractF64 v).map .float
  | .bool => (extractBool v).map .bool
  | .datetime => (extractString v).map .datetime
  | .date => (extractString v).map .date
  | .time => (extractString v).map .time

/-- `RustFieldInfo` (lib.rs lines 176-182). -/
structure RustFieldInfo where
  field_name : String
  field_type : FieldType
  type_name : String
  value : FieldValue
deriving DecidableEq, Repr

/-- Embedding of `rs_core::get_field_info` (lib.rs lines 185-242): walk
the fields in order; a type name that `FieldType::from_str` rejects is
skipped (`continue`); a value whose extraction fails aborts the whole
function (the `?` operator). -/
def get_field_info : List FieldDescr → Except CoreErr (List RustFieldInfo)
  | [] => .ok []
  | f :: rest =>
      match FieldType.from_str f.tyName with
      | none => get_field_info rest
      | some ft =>
          match getFieldValue ft f.value with
          | none => .error (.extractFailed f.name)
          | some fv =>
              match get_field_info rest with
              | .error e => .error e
              | .ok infos => .ok (⟨f.name, ft, f.tyName, fv⟩ :: infos)

/-- Embedding of `rs_core::parse_datamodel` (lib.rs lines 249-285):
collect `RustFieldInfo`s, then map each to `(name, parse && validate)`;
rayon's indexed parallel `collect` preserves the input order. -/
def parse_datamodel (fields : List FieldDescr) : Except CoreErr (List (String × Bool)) :=
  (get_field_info fields).map (List.map (fun fi =>
    if fi.field_type.parse fi.value then (fi.field_name, fi.field_type.validate fi.value)
    else (fi.field_name, false)))

end RsCore

/-- Modelled from the spec: the `datetime_to_timestamp` inverse
operation named by §4.5 has no implementation under `src/`; per the
spec's words it renders a datetime as epoch seconds plus the microsecond
fraction. -/
def specDatetimeToTimestamp (dt : PyDateTimeV) : ℚ :=
  ((daysFromCivil dt.year dt.month dt.day * 86400 +
      dt.hour * 3600 + dt.minute * 60 + dt.second : Int) : ℚ) +
    (dt.microsecond : ℚ) / 1000000

/-! ## Theorems -/

deriving instance DecidableEq for Except

/-- C3: the boolean truth-table parser first trims and lower-cases its
input, returns `true` exactly for `y, yes, t, true, on, 1`, `false`
exactly for `n, no, f, false, off, 0` (the `rs_parsers` variant also
accepts `none`, `null` — the claim's optional tokens), fails with an
error naming the offending input on every other token, and in
particular parses `"YES"` to `true`, `"Off"` to `false`, and fails on
`"maybe"`.  Both exported variants are covered. -/
theorem strtobool_truth_table :
    (∀ s, RsParsers.strtobool s = .ok true ↔ normToken s ∈ RsParsers.truthyTokens) ∧
    (∀ s, RsParsers.strtobool s = .ok false ↔ normToken s ∈ RsParsers.falsyTokens) ∧
    (∀ s, RsParsers.strtobool s = .error (.invalidBoolean s) ↔
      (normToken s ∉ RsParsers.truthyTokens ∧ normToken s ∉ RsParsers.falsyTokens)) ∧
    (∀ s, RstConverters.strtobool s = .ok true ↔ normToken s ∈ RstConverters.truthyTokens) ∧
    (∀ s, RstConverters.strtobool s = .ok false ↔ normToken s ∈ RstConverters.falsyTokens) ∧
    (∀ s, RstConverters.strtobool s = .error (.invalidBoolean s) ↔
      (normToken s ∉ RstConverters.truthyTokens ∧ normToken s ∉ RstConverters.falsyTokens)) ∧
    RsParsers.truthyTokens = ["y", "yes", "t", "true", "on", "1"] ∧
    RsParsers.strtobool "YES" = .ok true ∧
    RstConverters.strtobool "YES" = .ok true ∧
    RsParsers.strtobool "Off" = .ok false ∧
    RstConverters.strtobool "Off" = .ok false ∧
    RsParsers.strtobool "maybe" = .error (.invalidBoolean "maybe") ∧
    RstConverters.strtobool "maybe" = .error (.invalidBoolean "maybe") := by
  refine ⟨?_, ?_, ?_, ?_, ?_, ?_, rfl, rfl, rfl, rfl, rfl, rfl, rfl⟩ <;> intro s
  · have hd : ∀ x ∈ RsParsers.truthyTokens, x ∉ RsParsers.falsyTokens := by decide
    unfold RsParsers.strtobool
    split_ifs with h1 h2 <;> simp_all
  · have hd : ∀ x ∈ RsParsers.truthyTokens, x ∉ RsParsers.falsyTokens := by decide
    unfold RsParsers.strtobool
    split_ifs with h1 h2 <;> simp_all
  · unfold RsParsers.strtobool
    split_ifs with h1 h2 <;> simp_all
  · have hd : ∀ x ∈ RstConverters.truthyTokens, x ∉ RstConverters.falsyTokens := by decide
    unfold RstConverters.strtobool
    split_ifs with h1 h2 <;> simp_all
  · have hd : ∀ x ∈ RstConverters.truthyTokens, x ∉ RstConverters.falsyTokens := by decide
    unfold RstConverters.strtobool
    split_ifs with h1 h2 <;> simp_all
  · unfold RstConverters.strtobool
    split_ifs with h1 h2 <;> simp_all

/-- C10 counterexample: the two exported `strtobool` functions do not
compute the same function — on `"none"` (and `"null"`) the `rs_parsers`
variant returns `false` while the `rst_converters` variant fails. -/
theorem strtobool_variants_differ :
    RsParsers.strtobool "none" = .ok false ∧
    RstConverters.strtobool "none" = .error (.invalidBoolean "none") ∧
    RsParsers.strtobool "null" = .ok false ∧
    RstConverters.strtobool "null" = .error (.invalidBoolean "null") :=
  ⟨rfl, rfl, rfl, rfl⟩

/-- C10 amended: the two `strtobool` functions agree on every input
whose trimmed lower-cased form is neither `none` nor `null`; on exactly
those two tokens `rs_parsers` returns `false` while `rst_converters`
fails with an error naming the input. -/
theorem strtobool_variants_agree_off_none_null :
    (∀ s, normToken s ≠ "none" → normToken s ≠ "null" →
      RsParsers.strtobool s = RstConverters.strtobool s) ∧
    (∀ s, (normToken s = "none" ∨ normToken s = "null") →
      RsParsers.strtobool s = .ok false ∧
      RstConverters.strtobool s = .error (.invalidBoolean s)) := by
  constructor
  · intro s h1 h2
    unfold RsParsers.strtobool RstConverters.strtobool
    unfold RsParsers.truthyTokens RstConverters.truthyTokens
    unfold RsParsers.falsyTokens RstConverters.falsyTokens
    split_ifs with a b c d <;> simp_all [List.mem_cons]
  · intro s h
    rcases h with h | h <;>
      constructor <;>
      simp [RsParsers.strtobool, RstConverters.strtobool, h,
        RsParsers.truthyTokens, RstConverters.truthyTokens,
        RsParsers.falsyTokens, RstConverters.falsyTokens]

/-- Witness for the amended C10 theorem at the inputs `"True"` and
`" none "`. -/
theorem strtobool_variants_agree_witness :
    RsParsers.strtobool "True" = RstConverters.strtobool "True" ∧
    (RsParsers.strtobool " none " = .ok false ∧
      RstConverters.strtobool " none " = .error (.invalidBoolean " none ")) :=
  ⟨strtobool_variants_agree_off_none_null.1 "True" (by decide) (by decide),
   strtobool_variants_agree_off_none_null.2 " none " (Or.inl (by decide))⟩

/-- C9: every input whose trimmed form is empty is rejected by date and
datetime coercion (in both modules) with the distinct empty-input error
before any parse attempt, regardless of a supplied custom format. -/
theorem empty_input_rejected_first :
    ∀ input customFormat, (rustTrim input).isEmpty = true →
      RsParsers.to_date input customFormat = .error .emptyInput ∧
      RsParsers.to_datetime input customFormat = .error .emptyInput ∧
      RstConverters.to_date input customFormat = .error .emptyInput ∧
      RstConverters.to_datetime input customFormat = .error .emptyInput := by
  intro input cf h
  refine ⟨?_, ?_, ?_, ?_⟩ <;>
    simp [RsParsers.to_date, RsParsers.to_datetime,
      RstConverters.to_date, RstConverters.to_datetime, h]

/-- Witness for C9 at the all-whitespace input `"   "` with a custom
format supplied. -/
theorem empty_input_rejected_first_witness :
    RsParsers.to_date "   " (some "%d") = .error .emptyInput ∧
    RsParsers.to_datetime "   " (some "%d") = .error .emptyInput ∧
    RstConverters.to_date "   " (some "%d") = .error .emptyInput ∧
    RstConverters.to_datetime "   " (some "%d") = .error .emptyInput :=
  empty_input_rejected_first "   " (some "%d") (by rfl)

/-- C8: UUID coercion is lenient — a string that is not canonical UUID
text yields `Ok(None)` from both UUID entry points, and `to_uuid_obj`
never raises on any value — while the temporal parsers raise an error on
an unparseable input. -/
theorem uuid_lenient_temporal_strict :
    (∀ s, uuidParse s = none →
      RsParsers.to_uuid_obj (.pystr s) = .ok none ∧
      RsParsers.to_uuid_str (.pystr s) = .ok none) ∧
    (∀ v, ∃ r, RsParsers.to_uuid_obj v = .ok r) ∧
    RsParsers.to_date "maybe" none =
      .error (.unparseableDate "maybe" (RsParsers.formatsWithCustom none)) ∧
    RsParsers.to_datetime "maybe" none =
      .error (.unparseableDateTime "maybe" (RsParsers.formatsWithCustom none)) := by
  refine ⟨?_, ?_, by set_option maxHeartbeats 1600000 in rfl,
    by set_option maxHeartbeats 1600000 in rfl⟩
  · intro s h
    constructor <;> simp [RsParsers.to_uuid_obj, RsParsers.to_uuid_str, pyStr, h]
  · intro v
    cases v with
    | pystr s =>
        cases h : uuidParse s with
        | none => exact ⟨none, by simp [RsParsers.to_uuid_obj, pyStr, h]⟩
        | some c => exact ⟨some (.pyuuid c), by simp [RsParsers.to_uuid_obj, pyStr, h]⟩
    | callable u =>
        cases h : uuidParse (pyStr u) with
        | none => exact ⟨none, by simp only [RsParsers.to_uuid_obj, h]; rfl⟩
        | some c => exact ⟨some (.pyuuid c), by simp [RsParsers.to_uuid_obj, h]⟩
    | pynone => exact ⟨none, rfl⟩
    | pyuuid s => exact ⟨some (.pyuuid s), rfl⟩
    | pybool b =>
        cases h : uuidParse (pyStr (.pybool b)) with
        | none => exact ⟨none, by simp [RsParsers.to_uuid_obj, h]⟩
        | some c => exact ⟨some (.pyuuid c), by simp [RsParsers.to_uuid_obj, h]⟩
    | pyint n =>
        cases h : uuidParse (pyStr (.pyint n)) with
        | none => exact ⟨none, by simp [RsParsers.to_uuid_obj, h]⟩
        | some c => exact ⟨some (.pyuuid c), by simp [RsParsers.to_uuid_obj, h]⟩
    | pyfloat q => exact ⟨none, rfl⟩
    | pybytes bs => exact ⟨none, rfl⟩
    | pydate d => exact ⟨none, rfl⟩
    | pydatetime dt => exact ⟨none, rfl⟩
    | pytime h mi s us => exact ⟨none, rfl⟩
    | pydecimal s =>
        cases h : uuidParse (pyStr (.pydecimal s)) with
        | none => exact ⟨none, by simp [RsParsers.to_uuid_obj, h]⟩
        | some c => exact ⟨some (.pyuuid c), by simp [RsParsers.to_uuid_obj, h]⟩

/-- Witness for C8 at the non-UUID string `"maybe"`. -/
theorem uuid_lenient_witness :
    RsParsers.to_uuid_obj (.pystr "maybe") = .ok none ∧
    RsParsers.to_uuid_str (.pystr "maybe") = .ok none :=
  uuid_lenient_temporal_strict.1 "maybe" (by rfl)

/-- C7 counterexample: a callable returning a callable is re-invoked.
On the argument `callable (callable 5)`, `to_integer` performs two
invocations (the claim allows exactly one) and still coerces the
innermost value, where the claimed invoke-once semantics would treat
the first call's result (a callable) as a final, non-coercible value. -/
theorem resolvable_reinvoked :
    RsParsers.toIntegerInvocations (.callable (.callable (.pyint 5))) = 2 ∧
    RsParsers.to_integer (some (.callable (.callable (.pyint 5)))) =
      .ok (some (.pyint 5)) ∧
    RsParsers.toDecimalInvocations (.callable (.callable (.pystr "1.5"))) = 2 ∧
    RsParsers.to_decimal (some (.callable (.callable (.pystr "1.5")))) =
      .ok (some (.pydecimal "1.5")) :=
  ⟨rfl, rfl, rfl, rfl⟩

/-- C7 amended: the coercion entry points resolve callables recursively
— one invocation per nesting level, the call's result re-entering the
body as a present object (`Some(result)`), so a callable result is
re-invoked — and (on the inductive value model, where every resolvable
chain is finite) coercion terminates with the innermost value's
coercion.  A callable returning Python `None` is not short-circuited:
the body has no `is_none` check, so the resolved `None` reaches the
final extract attempt and errors (last two conjuncts). -/
theorem resolvable_recursive_resolution :
    (∀ v, RsParsers.to_integer (some (.callable v)) = RsParsers.to_integer (some v)) ∧
    (∀ v, RsParsers.toIntegerInvocations (.callable v) =
      RsParsers.toIntegerInvocations v + 1) ∧
    (∀ v, RsParsers.to_decimal (some (.callable v)) = RsParsers.to_decimal (some v)) ∧
    (∀ v, RsParsers.toDecimalInvocations (.callable v) =
      RsParsers.toDecimalInvocations v + 1) ∧
    RsParsers.to_integer (some (.callable .pynone)) =
      .error (.invalidConversionToInteger .pynone) ∧
    RsParsers.to_decimal (some (.callable .pynone)) =
      .error (.invalidConversionToDecimal .pynone) :=
  ⟨fun _ => rfl, fun _ => rfl, fun _ => rfl, fun _ => rfl, rfl, rfl⟩

/-- `Rat.floor` agrees with the `FloorRing` floor (the instance is built
from it). -/
lemma ratFloor_eq_intFloor (q : ℚ) : q.floor = ⌊q⌋ := rfl

/-- C4 (bug evaluation): at the in-range timestamp `t = 1.5` (exactly
representable in `f64`), both `to_timestamp` implementations return
1970-01-01T00:00:01.000500 — the computed 500000 fractional
microseconds are passed to chrono's `from_timestamp` as NANOseconds —
so the spec's `datetime_to_timestamp` round-trip lands at 1.0005,
off by 0.4995 s, far beyond the claimed 1-microsecond tolerance. -/
theorem to_timestamp_fraction_unit_bug :
    RsParsers.to_timestamp (3 / 2 : ℚ) = .ok ⟨1970, 1, 1, 0, 0, 1, 500⟩ ∧
    RstConverters.to_timestamp (3 / 2 : ℚ) = .ok ⟨1970, 1, 1, 0, 0, 1, 500⟩ ∧
    (1 / 1000000 : ℚ) <
      (3 / 2 : ℚ) - specDatetimeToTimestamp ⟨1970, 1, 1, 0, 0, 1, 500⟩ := by
  refine ⟨?_, ?_, ?_⟩
  · simp only [RsParsers.to_timestamp]
    norm_num [ratFloor_eq_intFloor, rustRound]
    decide
  · simp only [RstConverters.to_timestamp]
    norm_num [ratFloor_eq_intFloor, rustRound, rustFract, rustTrunc]
    decide
  · have h : daysFromCivil 1970 1 1 = 0 := by decide
    simp only [specDatetimeToTimestamp, h]
    norm_num

/-- C6 (bug evaluation): sub-second precision is lost on accepted
parse paths.  `"2024-01-01T00:00:00.1234567Z"` (seven fraction digits,
rejected by the speedate fast path, accepted by the RFC-3339 path)
comes back with microsecond 0 — the code rebuilds the datetime from the
whole-second `timestamp()` — where microsecond-resolution preservation
requires 123456.  `"2024-1-1T10:20:30.5"` (single-digit fields, accepted
only by the `%.f` fallback) comes back with microsecond 367968 instead
of 500000: the fallback computes `timestamp_micros() as u32 % 1_000_000`,
and the epoch-microsecond count wraps modulo `2^32`.  The speedate fast
path, by contrast, does preserve microseconds (last conjunct). -/
theorem to_datetime_subsecond_lost :
    RsParsers.to_datetime "2024-01-01T00:00:00.1234567Z" none =
      .ok ⟨2024, 1, 1, 0, 0, 0, 0⟩ ∧
    RstConverters.to_datetime "2024-01-01T00:00:00.1234567Z" none =
      .ok ⟨2024, 1, 1, 0, 0, 0, 0⟩ ∧
    RsParsers.to_datetime "2024-1-1T10:20:30.5" none =
      .ok ⟨2024, 1, 1, 10, 20, 30, 367968⟩ ∧
    RstConverters.to_datetime "2024-1-1T10:20:30.5" none =
      .ok ⟨2024, 1, 1, 10, 20, 30, 367968⟩ ∧
    RsParsers.to_datetime "2024-01-01T00:00:00.123456Z" none =
      .ok ⟨2024, 1, 1, 0, 0, 0, 123456⟩ := by
  refine ⟨?_, ?_, ?_, ?_, ?_⟩ <;> set_option maxHeartbeats 3200000 in decide

/-- C5: the fallback format list is, in order, exactly
`%Y-%m-%d`, `%m/%d/%Y`, `%m-%d-%Y`, `%d-%m-%Y`, `%Y/%m/%d`,
`%Y-%m-%dT%H:%M:%S%.f`, `%Y-%m-%d %H:%M:%S`, `%d/%m/%Y`, `%d.%m.%Y` in
both modules; after the fast path fails, `to_date` tries exactly the
built-in list with the caller's custom format appended last; and the
cascade returns the first format that parses the entire input (formats
before it all failing), ignoring every later format. -/
theorem fallback_cascade_order :
    (RsParsers.dateFormats =
      ["%Y-%m-%d", "%m/%d/%Y", "%m-%d-%Y", "%d-%m-%Y", "%Y/%m/%d",
       "%Y-%m-%dT%H:%M:%S%.f", "%Y-%m-%d %H:%M:%S", "%d/%m/%Y", "%d.%m.%Y"] ∧
      RstConverters.dateFormats = RsParsers.dateFormats) ∧
    (∀ input cf, (rustTrim input).isEmpty = false → speedateDateParse input = none →
      RsParsers.to_date input (some cf) =
        match (RsParsers.dateFormats ++ [cf]).findSome?
            (fun fmt => chronoParseDate input fmt) with
        | some (y, m, d) => pyDateNew y m d
        | none => .error (.unparseableDate input (RsParsers.dateFormats ++ [cf]))) ∧
    (∀ input cf, (rustTrim input).isEmpty = false → speedateDateParse input = none →
      RstConverters.to_date input (some cf) =
        match (RstConverters.dateFormats ++ [cf]).findSome?
            (fun fmt => chronoParseDate input fmt) with
        | some (y, m, d) => pyDateNew y m d
        | none => .error (.unparseableDate input (RstConverters.dateFormats ++ [cf]))) ∧
    (∀ (fs1 : List String) (fmt : String) (fs2 : List String) (input : String) ymd,
      (∀ g ∈ fs1, chronoParseDate input g = none) →
      chronoParseDate input fmt = some ymd →
      (fs1 ++ fmt :: fs2).findSome? (fun g => chronoParseDate input g) = some ymd) := by
  refine ⟨⟨rfl, rfl⟩, ?_, ?_, ?_⟩
  · intro input cf h1 h2
    simp only [RsParsers.to_date, RsParsers.formatsWithCustom, h1, h2]
    rw [if_neg Bool.false_ne_true]
  · intro input cf h1 h2
    simp only [RstConverters.to_date, RstConverters.formatsWithCustom, h1, h2,
      Option.getD_some]
    rw [if_neg Bool.false_ne_true]
  · intro fs1
    induction fs1 with
    | nil =>
        intro fmt fs2 input ymd _ h2
        simp [List.findSome?_cons, h2]
    | cons g gs ih =>
        intro fmt fs2 input ymd h1 h2
        have hg : chronoParseDate input g = none := h1 g (by simp)
        simp only [List.cons_append, List.findSome?_cons, hg]
        exact ih fmt fs2 input ymd (fun x hx => h1 x (by simp [hx])) h2

/-- Witness for C5: `"2005/03/04"` with custom format `%Y/%d/%m` parses
as March 4 — the built-in `%Y/%m/%d` (tried before the custom format)
wins over the custom format's April 3 reading — and in a cascade prefix
where `%Y-%m-%d` fails on `"03-04-2005"`, the first matching format
`%m-%d-%Y` decides the result (March 4, not the later `%d-%m-%Y`'s
April 3). -/
theorem fallback_cascade_order_witness :
    RsParsers.to_date "2005/03/04" (some "%Y/%d/%m") = .ok ⟨2005, 3, 4⟩ ∧
    (["%Y-%m-%d"] ++ "%m-%d-%Y" :: ["%d-%m-%Y"]).findSome?
        (fun g => chronoParseDate "03-04-2005" g) = some (2005, 3, 4) := by
  constructor
  · have h := fallback_cascade_order.2.1 "2005/03/04" "%Y/%d/%m" (by rfl) (by rfl)
    rw [h]
    set_option maxHeartbeats 1600000 in decide
  · exact fallback_cascade_order.2.2.2 ["%Y-%m-%d"] "%m-%d-%Y" ["%d-%m-%Y"]
      "03-04-2005" (2005, 3, 4)
      (by intro g hg; rw [List.mem_singleton.mp hg]; rfl) (by rfl)

/-- C1 counterexample: in `parse_datamodel` (a validation entry point of
the same module) an unsupported declared type token does NOT yield a
failed outcome for that field — the field is silently skipped by
`get_field_info` and receives no outcome at all: the record
`[a: complex, b: str]` validates to `[("b", true)]`, with no entry for
`"a"`. -/
theorem unsupported_field_skipped_not_failed :
    RsCore.parse_datamodel
        [⟨"a", "complex", .pystr "x"⟩, ⟨"b", "str", .pystr "ok"⟩] =
      .ok [("b", true)] ∧
    ∀ b, (("a", b) : String × Bool) ∉ [(("b" : String), true)] := by
  refine ⟨rfl, ?_⟩
  intro b
  simp

/-- C1 amended: in `validate_datamodel`, failure isolation holds — a
field whose declared type token is unsupported gets the outcome
`(name, false)` while every sibling field's outcome is exactly what it
would be in isolation (the surrounding record does not change it). -/
theorem validate_datamodel_failure_isolation :
    ∀ (pre post : List RsCore.FieldDescr) (f : RsCore.FieldDescr),
      f.tyName ∉ ["str", "int", "float", "bool", "datetime", "date"] →
      RsCore.validate_datamodel (pre ++ f :: post) =
        RsCore.validate_datamodel pre ++
          (f.name, false) :: RsCore.validate_datamodel post := by
  intro pre post f h
  simp only [List.mem_cons, List.mem_singleton, not_or] at h
  obtain ⟨h1, h2, h3, h4, h5, h6, -⟩ := h
  unfold RsCore.validate_datamodel
  rw [List.map_append, List.map_cons]
  simp [RsCore.validate_field, h1, h2, h3, h4, h5, h6]

/-- Witness for the amended C1 theorem: a `complex`-typed field between
`name` and `age` gets `false` while both siblings keep their own
outcomes. -/
theorem validate_datamodel_failure_isolation_witness :
    RsCore.validate_datamodel
        [⟨"name", "str", .pystr "Alice"⟩, ⟨"flag", "complex", .pyint 1⟩,
         ⟨"age", "int", .pyint 42⟩] =
      RsCore.validate_datamodel [⟨"name", "str", .pystr "Alice"⟩] ++
        ("flag", false) :: RsCore.validate_datamodel [⟨"age", "int", .pyint 42⟩] :=
  validate_datamodel_failure_isolation
    [⟨"name", "str", .pystr "Alice"⟩] [⟨"age", "int", .pyint 42⟩]
    ⟨"flag", "complex", .pyint 1⟩ (by decide)

/-- C2 counterexample: `parse_datamodel` on the one-field record
`[a: complex]` returns the empty result list — not a result set of the
input's length. -/
theorem parse_datamodel_partial_result :
    RsCore.parse_datamodel [⟨"a", "complex", .pystr "x"⟩] = .ok [] ∧
    ([] : List (String × Bool)).length ≠
      ([⟨"a", "complex", .pystr "x"⟩] : List RsCore.FieldDescr).length :=
  ⟨rfl, by decide⟩

/-- Names returned by `get_field_info`: exactly the fields whose type
token is supported, in input order. -/
lemma get_field_info_names : ∀ (fields : List RsCore.FieldDescr) infos,
    RsCore.get_field_info fields = .ok infos →
    infos.map RsCore.RustFieldInfo.field_name =
      (fields.filter (fun f => (RsCore.FieldType.from_str f.tyName).isSome)).map
        RsCore.FieldDescr.name := by
  intro fields
  induction fields with
  | nil =>
      intro infos h
      simp only [RsCore.get_field_info] at h
      cases h
      simp
  | cons f rest ih =>
      intro infos h
      unfold RsCore.get_field_info at h
      cases hft : RsCore.FieldType.from_str f.tyName with
      | none =>
          rw [hft] at h
          rw [List.filter_cons_of_neg (by simp [hft])]
          exact ih infos h
      | some ft =>
          rw [hft] at h
          dsimp only at h
          cases hgv : RsCore.getFieldValue ft f.value with
          | none => rw [hgv] at h; cases h
          | some fv =>
              rw [hgv] at h
              cases hrec : RsCore.get_field_info rest with
              | error e => rw [hrec] at h; cases h
              | ok infos2 =>
                  rw [hrec] at h
                  cases h
                  rw [List.filter_cons_of_pos (by simp [hft])]
                  simp only [List.map_cons]
                  rw [ih infos2 hrec]

/-- C2 amended: `validate_datamodel` always returns one outcome per
input field, in input order; `parse_datamodel`, when it returns at all,
lists in input order exactly the fields whose declared type token is
supported (unsupported fields are dropped, and an extraction failure
returns no result set). -/
theorem validation_result_order :
    (∀ fields, (RsCore.validate_datamodel fields).map Prod.fst =
      fields.map RsCore.FieldDescr.name) ∧
    (∀ fields rs, RsCore.parse_datamodel fields = .ok rs →
      rs.map Prod.fst =
        (fields.filter (fun f => (RsCore.FieldType.from_str f.tyName).isSome)).map
          RsCore.FieldDescr.name) := by
  constructor
  · intro fields
    unfold RsCore.validate_datamodel
    rw [List.map_map]
    rfl
  · intro fields rs h
    unfold RsCore.parse_datamodel at h
    cases hg : RsCore.get_field_info fields with
    | error e => rw [hg] at h; cases h
    | ok infos =>
        rw [hg] at h
        cases h
        rw [List.map_map]
        have hfst : ∀ fi ∈ infos,
            (Prod.fst ∘ fun fi : RsCore.RustFieldInfo =>
              if fi.field_type.parse fi.value then
                (fi.field_name, fi.field_type.validate fi.value)
              else (fi.field_name, false)) fi = fi.field_name := by
          intro fi _
          by_cases hc : fi.field_type.parse fi.value <;> simp [hc]
        rw [List.map_congr_left hfst]
        exact get_field_info_names fields infos hg

/-- Witness for the amended C2 theorem at a record whose `parse_datamodel`
run succeeds. -/
theorem validation_result_order_witness :
    ([("b", true)] : List (String × Bool)).map Prod.fst =
      (([⟨"a", "complex", .pystr "x"⟩, ⟨"b", "str", .pystr "ok"⟩] :
          List RsCore.FieldDescr).filter
        (fun f => (RsCore.FieldType.from_str f.tyName).isSome)).map
        RsCore.FieldDescr.name :=
  validation_result_order.2 [⟨"a", "complex", .pystr "x"⟩, ⟨"b", "str", .pystr "ok"⟩]
    [("b", true)] (by rfl)
